import Mathlib

/-!
Verification of the ExpenseOwl storage/domain layer.

The Go sources are shallowly embedded below:
* a date kernel modelling Go `time.Time` (UTC) as seconds since the Unix
  epoch, with the field normalization of `time.Date` and `Time.AddDate`;
* the sanitization and validation functions of the storage package;
* the relational store (`databaseStore`), modelled as a pure state machine
  over the three tables it manages;
* the recurrence expander `generateExpensesFromRecurring`;
* the window computation and trial-balance totals of the documents layer.

Monetary amounts (Go `float64`) are modelled as exact rationals.
-/

namespace ExpenseOwl

/-! ## Date kernel: Go `time` package on UTC, second granularity.

A `time.Time` in UTC is modelled as its number of seconds since
1970-01-01T00:00:00Z (an unbounded `Int`; nanoseconds are never used by the
repository). `time.Date` accepts out-of-range fields and normalizes them;
`goDate` reproduces that normalization. -/

/-- Gregorian leap-year test, as in Go `time.isLeap`. -/
def isLeap (y : Int) : Bool :=
  y % 4 = 0 && (y % 100 ≠ 0 || y % 400 = 0)

/-- Number of days of month `m` (1-12) of year `y`. -/
def daysInMonth (y m : Int) : Int :=
  if m = 2 then (if isLeap y then 29 else 28)
  else if m = 4 ∨ m = 6 ∨ m = 9 ∨ m = 11 then 30
  else 31

/-- Days from January 1 to the first day of month `m` (1-12) of year `y`. -/
def daysBeforeMonth (y m : Int) : Int :=
  (if m = 1 then 0
   else if m = 2 then 31
   else if m = 3 then 59
   else if m = 4 then 90
   else if m = 5 then 120
   else if m = 6 then 151
   else if m = 7 then 181
   else if m = 8 then 212
   else if m = 9 then 243
   else if m = 10 then 273
   else if m = 11 then 304
   else 334)
  + (if 3 ≤ m ∧ isLeap y then 1 else 0)

/-- Days from 0001-01-01 to the first day of year `y` in the proleptic
Gregorian calendar (floor division extends it to every `Int`). -/
def daysBeforeYear (y : Int) : Int :=
  365 * (y - 1) + (y - 1) / 4 - (y - 1) / 100 + (y - 1) / 400

/-- Days from 0001-01-01 to 1970-01-01 (Go `unixToInternal / secondsPerDay`). -/
def epochOffsetDays : Int := 719162

/-- Day number (days since 1970-01-01) of the date that the Go function
`time.Date(y, m, d, …)` normalizes to: the month is brought into 1-12 by
floor division (Go `norm`), and an out-of-range day is a plain day offset. -/
def civilDays (y m d : Int) : Int :=
  let y2 := y + (m - 1) / 12
  let m2 := (m - 1) % 12 + 1
  daysBeforeYear y2 + daysBeforeMonth y2 m2 + (d - 1) - epochOffsetDays

/-- Seconds since the Unix epoch of the Go call
`time.Date(y, m, d, h, mi, s, 0, time.UTC)`. Out-of-range clock fields
shift the result linearly, exactly as the Go normalization does. -/
def goDate (y m d h mi s : Int) : Int :=
  civilDays y m d * 86400 + h * 3600 + mi * 60 + s

/-- The Go zero `time.Time`: January 1, year 1, 00:00:00 UTC.
`t.IsZero()` is `t = zeroTime` in this model. -/
def zeroTime : Int := goDate 1 1 1 0 0 0

/-- Civil date `(year, month, day)` of a day number (days since 1970-01-01);
the standard era-based conversion, inverse to `civilDays` on normalized
dates. Used to model `Time.Date()` field extraction inside `AddDate`. -/
def civilFromDays (z : Int) : Int × Int × Int :=
  let z2 := z + 719468
  let era := z2 / 146097
  let doe := z2 % 146097
  let yoe := (doe - doe / 1460 + doe / 36524 - doe / 146096) / 365
  let y := yoe + era * 400
  let doy := doe - (365 * yoe + yoe / 4 - yoe / 100)
  let mp := (5 * doy + 2) / 153
  let d := doy - (153 * mp + 2) / 5 + 1
  let m := mp + (if mp < 10 then 3 else -9)
  (if m ≤ 2 then y + 1 else y, m, d)

/-- Go `Time.AddDate(years, months, days)`: extract the civil fields, add the
offsets and renormalize through `time.Date`, keeping the time of day. -/
def addDate (t years months days : Int) : Int :=
  let day := t / 86400
  let sod := t % 86400
  let c := civilFromDays day
  goDate (c.1 + years) (c.2.1 + months) (c.2.2 + days) 0 0 sod

/-! ## Sanitization and validation (storage package).

`SanitizeString` implements
`REInvalidChars` (everything outside letters, numbers, white space and a
small punctuation set) replaced by a space, then
`RERepeatingSpaces = \s+` collapsed to one space, then `strings.TrimSpace`.
The Unicode `\p{L}`/`\p{N}` classes are modelled exactly on the ASCII range;
code points above `0x7F` are conservatively kept (treated as letters) — every
string exercised by the claims below is ASCII. -/

/-- The character class of Go regexp `\s`: `[\t\n\f\r ]`. -/
def regexSpace (c : Char) : Bool :=
  c = ' ' || c = '\t' || c = '\n' || c = '\x0c' || c = '\r'

/-- Go `unicode.IsSpace`, exact on the ASCII range. -/
def isGoSpace (c : Char) : Bool :=
  regexSpace c || c = '\x0b'

/-- The punctuation kept by `REInvalidChars`: dot, comma, hyphen,
apostrophe, underscore, exclamation mark, double quote and ampersand. -/
def allowedPunct (c : Char) : Bool :=
  c = '.' || c = ',' || c = '-' || c = '\x27' || c = '_' || c = '!' || c = '\x22' || c = '&'

/-- Go regexp `\p{L}|\p{N}` (Unicode letter or number), exact on ASCII;
code points above `0x7F` are conservatively treated as letters. -/
def isLetterOrNumber (c : Char) : Bool :=
  let n := c.toNat
  decide ((97 ≤ n ∧ n ≤ 122) ∨ (65 ≤ n ∧ n ≤ 90) ∨ (48 ≤ n ∧ n ≤ 57) ∨ 128 ≤ n)

/-- A character matched by `REInvalidChars` (and hence replaced by a space). -/
def isInvalidChar (c : Char) : Bool :=
  !(isLetterOrNumber c || regexSpace c || allowedPunct c)

/-- Collapse every maximal run of `\s` characters to a single space
(`RERepeatingSpaces.ReplaceAllString(s, " ")`); the Boolean records whether
the previous character was part of a run. -/
def collapseAux : Bool → List Char → List Char
  | _, [] => []
  | prevSpace, c :: cs =>
    if regexSpace c then
      if prevSpace then collapseAux true cs
      else ' ' :: collapseAux true cs
    else c :: collapseAux false cs

/-- `strings.TrimSpace`: drop leading and trailing white space. -/
def trimSpace (l : List Char) : List Char :=
  ((l.dropWhile isGoSpace).reverse.dropWhile isGoSpace).reverse

/-- `SanitizeString` from the storage package. -/
def SanitizeString (s : String) : String :=
  let replaced := s.data.map (fun c => if isInvalidChar c then ' ' else c)
  String.mk (trimSpace (collapseAux false replaced))

/-- `ValidateCategory`: sanitize, then reject an empty result. -/
def ValidateCategory (category : String) : Except String String :=
  let sanitized := SanitizeString category
  if sanitized = "" then
    Except.error "category name cannot be empty or contain only invalid characters"
  else Except.ok sanitized

/-! ## Domain model (storage package, `part_001`). -/

/-- The `Expense` struct of `internal/storage` (the version without a
`RecurringID` field, matching `databaseStore.go`). `Amount` (Go `float64`)
is an exact rational; `Date` is seconds since the epoch. -/
structure Expense where
  ID : String
  Description : String
  From : String
  To : String
  Method : String
  Note : String
  Category : String
  Amount : Rat
  Currency : String
  Date : Int
deriving DecidableEq, Repr

/-- The field-specific errors of `Expense.Validate`; each constructor stands
for the corresponding `fmt.Errorf` message naming the offending field. -/
inductive ValidationErr where
  | descriptionEmpty   -- the description cannot be empty
  | categoryEmpty      -- the category cannot be empty
  | amountZero         -- the amount cannot be 0
  | dateEmpty          -- the date cannot be empty
deriving DecidableEq, Repr

/-- `Expense.Validate`: sanitizes description/from/to/method in place and
checks the required fields; the returned expense is the mutated receiver. -/
def Expense.validate (e : Expense) : Except ValidationErr Expense :=
  let desc := SanitizeString e.Description
  if desc = "" then Except.error ValidationErr.descriptionEmpty
  else
    let e2 := { e with
      Description := desc
      From := SanitizeString e.From
      To := SanitizeString e.To
      Method := SanitizeString e.Method }
    if e2.Category = "" then Except.error ValidationErr.categoryEmpty
    else if e2.Amount = 0 then Except.error ValidationErr.amountZero
    else if e2.Date = zeroTime then Except.error ValidationErr.dateEmpty
    else Except.ok e2

/-- `GenerateTransactionID`: `"BAU-%04d"` for expenses, `"RES-%04d"` for
gains (`%04d` for the non-negative counters the store produces). -/
def GenerateTransactionID (isGain : Bool) (counter : Int) : String :=
  let digits := toString counter.natAbs
  let padded := String.mk (List.replicate (4 - digits.length) '0') ++ digits
  (if isGain then "RES" else "BAU") ++ "-" ++ (if counter < 0 then "-" else "") ++ padded

/-- `defaultCategories` from the storage package. -/
def defaultCategories : List String :=
  ["Food", "Groceries", "Travel", "Rent", "Utilities", "Entertainment",
   "Healthcare", "Shopping", "Miscellaneous", "Income"]

/-- `SupportedLanguages` from the storage package. -/
def SupportedLanguages : List String := ["en", "ms"]

/-- `SupportedCurrencies` from the storage package. -/
def SupportedCurrencies : List String :=
  ["usd", "eur", "gbp", "jpy", "cny", "krw", "inr", "rub", "brl", "zar",
   "aed", "aud", "cad", "chf", "hkd", "bdt", "sgd", "thb", "try", "mxn",
   "php", "pln", "sek", "nzd", "dkk", "idr", "ils", "vnd", "myr", "mad"]

/-! ## Relational store (`internal/storage/databaseStore.go`).

The store is modelled as a pure state machine. `DBState` holds the rows of
the `config` and `expenses` tables and the in-memory `defaults` cache; every
operation returns the successor state. Database I/O itself is assumed to
succeed — the model captures what each SQL statement does to the rows,
including the primary-key constraint on `expenses.id`. -/

/-- The in-memory `Config` struct of the storage package. -/
structure Config where
  Categories : List String
  Currency : String
  StartDate : Int
  Language : String
  VoucherCounter : Int
  ReceiptCounter : Int
  OpeningBalance : Rat
  UseManualBalances : Bool
  ManualBalances : List (String × Rat)
deriving DecidableEq, Repr

/-- `Config.SetBaseConfig`: the hard-coded defaults. -/
def Config.setBaseConfig (c : Config) : Config :=
  { c with
    Categories := defaultCategories
    Currency := "usd"
    StartDate := 1
    Language := "en" }

/-- The zero `Config` value that `&Config{}` starts from in `GetConfig`. -/
def emptyConfig : Config :=
  { Categories := [], Currency := "", StartDate := 0, Language := "",
    VoucherCounter := 0, ReceiptCounter := 0, OpeningBalance := 0,
    UseManualBalances := false, ManualBalances := [] }

/-- One row of the `config` table. The schema has no `language` column. -/
structure ConfigRow where
  categories : List String
  currency : String
  start_date : Int
  voucher_counter : Int
  receipt_counter : Int
  opening_balance : Rat
  use_manual_balances : Bool
  manual_balances : List (String × Rat)
deriving DecidableEq, Repr

/-- State of the relational store: the two tables plus the `defaults` map
(of which only the `"currency"` entry is ever read by the modelled code). -/
structure DBState where
  configRow : Option ConfigRow
  expenses : List Expense
  defaultsCurrency : String
deriving DecidableEq, Repr

/-- `saveConfig`: upsert of `(categories, currency, start_date)` into the
single `config` row — the other columns keep their values (or the column
defaults on a fresh insert) — and refresh of the `defaults` cache.
The `language` field of the argument is not persisted anywhere. -/
def saveConfig (st : DBState) (cfg : Config) : DBState :=
  let row : ConfigRow :=
    match st.configRow with
    | some r =>
      { r with
        categories := cfg.Categories
        currency := cfg.Currency
        start_date := cfg.StartDate }
    | none =>
      { categories := cfg.Categories, currency := cfg.Currency,
        start_date := cfg.StartDate, voucher_counter := 0, receipt_counter := 0,
        opening_balance := 0, use_manual_balances := false, manual_balances := [] }
  { st with configRow := some row, defaultsCurrency := cfg.Currency }

/-- `GetConfig`: read the single config row; on `sql.ErrNoRows` write and
return the hard-coded defaults (create-or-read). A present row is decoded
into a `Config` whose `Language` stays at its zero value `""`, since the
`SELECT` has no language column. -/
def GetConfig (st : DBState) : DBState × Config :=
  match st.configRow with
  | none =>
    let cfg := emptyConfig.setBaseConfig
    (saveConfig st cfg, cfg)
  | some r =>
    (st,
     { Categories := r.categories, Currency := r.currency,
       StartDate := r.start_date, Language := "",
       VoucherCounter := r.voucher_counter, ReceiptCounter := r.receipt_counter,
       OpeningBalance := r.opening_balance,
       UseManualBalances := r.use_manual_balances,
       ManualBalances := r.manual_balances })

/-- `updateConfig`: read-modify-write of the config row. -/
def updateConfig (st : DBState) (updater : Config → Config) : DBState :=
  let rc := GetConfig st
  saveConfig rc.1 (updater rc.2)

/-- `GetCurrency`. -/
def GetCurrency (st : DBState) : DBState × String :=
  let rc := GetConfig st
  (rc.1, rc.2.Currency)

/-- `UpdateCurrency`: reject currencies outside `SupportedCurrencies`
before touching the database. -/
def UpdateCurrency (st : DBState) (currency : String) : DBState × Except String Unit :=
  if SupportedCurrencies.contains currency then
    (updateConfig st (fun c => { c with Currency := currency }), Except.ok ())
  else (st, Except.error ("invalid currency: " ++ currency))

/-- `GetLanguage`: an empty stored language is reported as `"en"`. -/
def GetLanguage (st : DBState) : DBState × String :=
  let rc := GetConfig st
  (rc.1, if rc.2.Language = "" then "en" else rc.2.Language)

/-- `UpdateLanguage`: reject languages outside `SupportedLanguages`, then
run the usual read-modify-write (whose `saveConfig` never writes the
language). -/
def UpdateLanguage (st : DBState) (language : String) : DBState × Except String Unit :=
  if SupportedLanguages.contains language then
    (updateConfig st (fun c => { c with Language := language }), Except.ok ())
  else (st, Except.error ("invalid language: " ++ language))

/-- `GetStartDate`. -/
def GetStartDate (st : DBState) : DBState × Int :=
  let rc := GetConfig st
  (rc.1, rc.2.StartDate)

/-- `UpdateStartDate`: reject values outside `[1, 31]`. -/
def UpdateStartDate (st : DBState) (startDate : Int) : DBState × Except String Unit :=
  if startDate < 1 ∨ startDate > 31 then
    (st, Except.error ("invalid start date: " ++ toString startDate))
  else (updateConfig st (fun c => { c with StartDate := startDate }), Except.ok ())

/-- `AddExpense`: assign a counter-based ID when the caller leaves it empty
(`UPDATE … RETURNING` on the config row; when that row is missing, Go
ignores the `Scan` error and the counter stays `0`), default an empty
currency from the cache and a zero date to `now`, then `INSERT` the row.
The insert fails on a duplicate primary key. -/
def AddExpense (st : DBState) (expense : Expense) (now : Int) : DBState × Except String Unit :=
  let idStep : DBState × Expense :=
    if expense.ID = "" then
      let isGain := expense.Amount > 0
      match st.configRow with
      | some r =>
        let counter := if isGain then r.receipt_counter + 1 else r.voucher_counter + 1
        let r2 := if isGain then { r with receipt_counter := counter }
                  else { r with voucher_counter := counter }
        ({ st with configRow := some r2 },
         { expense with ID := GenerateTransactionID isGain counter })
      | none => (st, { expense with ID := GenerateTransactionID isGain 0 })
    else (st, expense)
  let st1 := idStep.1
  let e1 := idStep.2
  let e2 := if e1.Currency = "" then { e1 with Currency := st1.defaultsCurrency } else e1
  let e3 := if e2.Date = zeroTime then { e2 with Date := now } else e2
  if st1.expenses.any (fun x => x.ID = e3.ID) then
    (st1, Except.error "duplicate key value violates unique constraint")
  else ({ st1 with expenses := st1.expenses ++ [e3] }, Except.ok ())

/-- `GetExpense` via `scanExpense`: find the row by ID. The `SELECT` list is
`id, description, "from", "to", method, note, category, amount, date` — it
has no currency column, so the scanned expense keeps `Currency` at its zero
value `""`. -/
def GetExpense (st : DBState) (id : String) : Except String Expense :=
  match st.expenses.find? (fun x => x.ID = id) with
  | none => Except.error ("expense with ID " ++ id ++ " not found")
  | some row => Except.ok { row with Currency := "" }

/-! ## Recurring-transaction store (`src/unnamed/part_002`).

This version of `databaseStore.go` adds the `recurring_expenses` table, a
`recurring_id` column on `expenses`, and the recurrence expander. Its
`Expense` struct carries the extra `RecurringID` back-reference. -/

namespace Recur

/-- The `Expense` struct of the recurring-store version (with the
`recurring_id` back-reference). -/
structure Expense where
  ID : String
  Description : String
  From : String
  To : String
  Method : String
  Note : String
  Category : String
  Amount : Rat
  Currency : String
  Date : Int
  RecurringID : String
deriving DecidableEq, Repr

/-- The `RecurringExpense` struct. Its declaration is not among the source
files; the fields are reconstructed from its uses in the source
(`scanRecurringExpense`, `AddRecurringExpense`,
`generateExpensesFromRecurring`) and match the Recurring Template
attribute list of the spec. -/
structure RecurringExpense where
  ID : String
  Description : String
  Amount : Rat
  Currency : String
  From : String
  To : String
  Method : String
  Note : String
  Category : String
  StartDate : Int
  Interval : String
  Occurrences : Int
deriving DecidableEq, Repr

/-- One interval step of the `switch` in `generateExpensesFromRecurring`:
`AddDate(0,0,1)` for daily, `AddDate(0,0,7)` for weekly, `AddDate(0,1,0)`
for monthly, `AddDate(1,0,0)` for yearly; `none` is the `default` branch
that stops generation. -/
def stepInterval (interval : String) (d : Int) : Option Int :=
  if interval = "daily" then some (addDate d 0 0 1)
  else if interval = "weekly" then some (addDate d 0 0 7)
  else if interval = "monthly" then some (addDate d 0 1 0)
  else if interval = "yearly" then some (addDate d 1 0 0)
  else none

/-- The instance the materialization loop appends: every template field is
copied, the ID is left blank, and the date is the current cursor value. -/
def instanceOf (recExp : RecurringExpense) (date : Int) : Expense :=
  { ID := "", RecurringID := recExp.ID, Description := recExp.Description,
    From := recExp.From, To := recExp.To, Method := recExp.Method,
    Note := recExp.Note, Category := recExp.Category, Amount := recExp.Amount,
    Currency := recExp.Currency, Date := date }

/-- The materialization loop (`for range limit`): append an instance dated
at the cursor, then step the cursor; an unrecognized interval returns what
was produced so far (including the instance just appended). -/
def genLoop (recExp : RecurringExpense) : Int → Nat → List Expense
  | _, 0 => []
  | cur, n + 1 =>
    let e := instanceOf recExp cur
    match stepInterval recExp.Interval cur with
    | some next => e :: genLoop recExp next n
    | none => [e]

/-- `generateExpensesFromRecurring` restricted to `fromToday = false`, the
only mode the claims below exercise: the fast-forward phase is skipped, the
cursor starts at the start date of the template and
`limit = occurrencesToGenerate = recExp.Occurrences` (a Go
`for range limit` loop runs zero times when the limit is not positive). -/
def generateExpensesFromRecurring (recExp : RecurringExpense) : List Expense :=
  genLoop recExp recExp.StartDate recExp.Occurrences.toNat

/-- State of the recurring-store version: the three tables plus the
`defaults` cache. -/
structure RecurState where
  rules : List RecurringExpense
  expenses : List Expense
  defaultsCurrency : String
deriving DecidableEq, Repr

/-- Insert rows one by one under the `expenses.id` primary-key constraint
(as the bulk `COPY` of `AddRecurringExpense` does); `none` is a constraint
violation, which aborts the surrounding transaction. -/
def insertAllPK (table : List Expense) : List Expense → Option (List Expense)
  | [] => some table
  | e :: rest =>
    if table.any (fun x => x.ID = e.ID) then none
    else insertAllPK (table ++ [e]) rest

/-- `AddRecurringExpense`: inside one transaction, insert the rule row, then
bulk-insert every instance of `generateExpensesFromRecurring(…, false)`
exactly as generated. Any failure rolls the whole transaction back; the
caller observes the unchanged state together with the error. -/
def AddRecurringExpense (st : RecurState) (recurringExpense : RecurringExpense)
    (newUUID : String) : RecurState × Except String Unit :=
  let re := if recurringExpense.ID = "" then { recurringExpense with ID := newUUID }
            else recurringExpense
  let re := if re.Currency = "" then { re with Currency := st.defaultsCurrency } else re
  if st.rules.any (fun r => r.ID = re.ID) then
    (st, Except.error "failed to insert recurring expense rule")
  else
    let expensesToAdd := generateExpensesFromRecurring re
    match insertAllPK st.expenses expensesToAdd with
    | none => (st, Except.error "failed to finalize copy in")
    | some table => ({ st with rules := st.rules ++ [re], expenses := table }, Except.ok ())

/-- `RemoveRecurringExpense`: inside one transaction, delete the rule row
(`NotFound` when no row matches), then delete either every instance
referencing the rule (`removeAll`) or only the instances dated strictly
after `time.Now()`. -/
def RemoveRecurringExpense (st : RecurState) (id : String) (removeAll : Bool)
    (now : Int) : RecurState × Except String Unit :=
  if st.rules.any (fun r => r.ID = id) then
    let rules := st.rules.filter (fun r => !(r.ID = id : Bool))
    let expenses :=
      if removeAll then st.expenses.filter (fun e => !(e.RecurringID = id : Bool))
      else st.expenses.filter (fun e => !((e.RecurringID = id : Bool) && (now < e.Date : Bool)))
    ({ st with rules := rules, expenses := expenses }, Except.ok ())
  else (st, Except.error ("recurring expense with ID " ++ id ++ " not found"))

/-- `AddExpense` of the recurring-store version: identical to the plain
plain-store `AddExpense` (counter-based ID when empty, currency and date
defaulting, plain `INSERT`) with the `recurring_id` column carried along.
No field validation or sanitization is applied. The config row is modelled
only through its two counters here. -/
def AddExpense (st : RecurState) (voucherCounter receiptCounter : Int)
    (expense : Expense) (now : Int) :
    (RecurState × Int × Int) × Except String Unit :=
  let idStep : Int × Int × Expense :=
    if expense.ID = "" then
      let isGain := expense.Amount > 0
      if isGain then
        (voucherCounter, receiptCounter + 1,
         { expense with ID := GenerateTransactionID isGain (receiptCounter + 1) })
      else
        (voucherCounter + 1, receiptCounter,
         { expense with ID := GenerateTransactionID isGain (voucherCounter + 1) })
    else (voucherCounter, receiptCounter, expense)
  let e1 := idStep.2.2
  let e2 := if e1.Currency = "" then { e1 with Currency := st.defaultsCurrency } else e1
  let e3 := if e2.Date = zeroTime then { e2 with Date := now } else e2
  if st.expenses.any (fun x => x.ID = e3.ID) then
    ((st, idStep.1, idStep.2.1), Except.error "duplicate key value violates unique constraint")
  else (({ st with expenses := st.expenses ++ [e3] }, idStep.1, idStep.2.1), Except.ok ())

end Recur

/-! ## Aggregation and reporting (`internal/api/documents.go`). -/

/-- The date window of `GenerateReportPDF` (lines 916-930): the calendar
month when the configured start date is 1, otherwise from `startDate` of the
requested month to `startDate - 1` of the following month, wrapping the
year at December. -/
def reportWindow (startDate year month : Int) : Int × Int :=
  if startDate = 1 then
    (goDate year month 1 0 0 0, goDate year (month + 1) 0 23 59 59)
  else
    (goDate year month startDate 0 0 0,
     if month = 12 then goDate (year + 1) 1 (startDate - 1) 23 59 59
     else goDate year (month + 1) (startDate - 1) 23 59 59)

/-- The date filter of `GenerateReportPDF`:
`(d.Equal(start) || d.After(start)) && (d.Equal(end) || d.Before(end))`. -/
def inWindow (w : Int × Int) (d : Int) : Bool :=
  ((d = w.1 : Bool) || (w.1 < d : Bool)) && ((d = w.2 : Bool) || (d < w.2 : Bool))

/-- The date-range filtering loop of `GenerateReportPDF` (lines 933-938). -/
def filterByWindow (w : Int × Int) (expenses : List Expense) : List Expense :=
  expenses.filter (fun e => inWindow w e.Date)

/-- `map[cat] += v` on an association-list model of a Go map; the sum of the
values is all the statement totals read from it. -/
def insertAdd (m : List (String × Rat)) (k : String) (v : Rat) : List (String × Rat) :=
  match m with
  | [] => [(k, v)]
  | (k2, v2) :: rest =>
    if k2 = k then (k2, v2 + v) :: rest else (k2, v2) :: insertAdd rest k v

/-- The category-totals loop of `buildStatementPDF` (lines 1327-1344):
negative amounts accumulate their absolute value in the debit map under
their category (`"Uncategorized"` when empty), positive amounts accumulate
in the credit map, and zero amounts are skipped. -/
def statementMaps (expenses : List Expense) :
    List (String × Rat) × List (String × Rat) :=
  expenses.foldl
    (fun maps exp =>
      let category := if exp.Category = "" then "Uncategorized" else exp.Category
      if exp.Amount < 0 then (insertAdd maps.1 category |exp.Amount|, maps.2)
      else if exp.Amount > 0 then (maps.1, insertAdd maps.2 category exp.Amount)
      else maps)
    ([], [])

/-- `totalExpenses` of `buildStatementPDF`: the sum over the debit rows. -/
def totalExpenses (expenses : List Expense) : Rat :=
  ((statementMaps expenses).1.map Prod.snd).sum

/-- `totalGains` of `buildStatementPDF`: the sum over the credit rows. -/
def totalGains (expenses : List Expense) : Rat :=
  ((statementMaps expenses).2.map Prod.snd).sum

/-- `closingBalance = openingBalance + totalGains - totalExpenses`. -/
def closingBalance (expenses : List Expense) (openingBalance : Rat) : Rat :=
  openingBalance + totalGains expenses - totalExpenses expenses

/-- `totalDebits = totalExpenses + closingBalance`. -/
def totalDebits (expenses : List Expense) (openingBalance : Rat) : Rat :=
  totalExpenses expenses + closingBalance expenses openingBalance

/-- `totalCredits = openingBalance + totalGains`. -/
def totalCredits (expenses : List Expense) (openingBalance : Rat) : Rat :=
  openingBalance + totalGains expenses

/-! ## Helpers shared by the claim theorems. -/

deriving instance DecidableEq for Except

/-- Boolean success test for `Except`. -/
def exceptOk : Except ε α → Bool
  | Except.ok _ => true
  | Except.error _ => false

/-! ## Concrete instances used by the claim theorems. -/

/-- The transaction used to exhibit C10 (zero amount and empty description,
with caller-supplied ID, currency and date). -/
def c10Expense : Recur.Expense :=
  { ID := "X1", Description := "", From := "", To := "", Method := "",
    Note := "", Category := "Rent", Amount := 0, Currency := "usd",
    Date := goDate 2024 1 1 0 0 0, RecurringID := "" }

/-- The store state used to exhibit C10. -/
def c10State : Recur.RecurState :=
  { rules := [], expenses := [], defaultsCurrency := "usd" }

/-- The recurring template used to exhibit C5 (a recognized interval and
occurrence count 2). -/
def c5Template : Recur.RecurringExpense :=
  { ID := "R1", Description := "Rent", Amount := -5, Currency := "usd",
    From := "", To := "Landlord", Method := "", Note := "", Category := "Rent",
    StartDate := goDate 2024 1 1 0 0 0, Interval := "monthly", Occurrences := 2 }

/-- The store state used to exhibit C5. -/
def c5State : Recur.RecurState :=
  { rules := [], expenses := [], defaultsCurrency := "usd" }

/-- The transaction exhibiting the C4 counterexample: its category `"@"` is
non-empty as given but sanitizes to the empty string. -/
def c4Expense : Expense :=
  { ID := "", Description := "Rent", From := "", To := "", Method := "",
    Note := "", Category := "@", Amount := -5, Currency := "",
    Date := goDate 2024 3 5 0 0 0 }

/-- The transaction exhibiting the C3 counterexample: a caller-supplied
non-empty currency, non-empty ID and non-zero date. -/
def c3Expense : Expense :=
  { ID := "E1", Description := "Rent March", From := "", To := "Landlord",
    Method := "", Note := "", Category := "Rent", Amount := -5,
    Currency := "myr", Date := goDate 2024 3 5 0 0 0 }

/-- The store state exhibiting the C3 counterexample. -/
def c3State : DBState :=
  { configRow := none, expenses := [], defaultsCurrency := "usd" }

/-- The store state for the C7 witness: one rule `"R1"` with a past, a
future and a foreign instance. -/
def c7State : Recur.RecurState :=
  { rules := [{ ID := "R1", Description := "Rent", Amount := -5, Currency := "usd",
                From := "", To := "", Method := "", Note := "", Category := "Rent",
                StartDate := 0, Interval := "monthly", Occurrences := 2 }],
    expenses :=
      [{ ID := "A", Description := "Rent", From := "", To := "", Method := "",
         Note := "", Category := "Rent", Amount := -5, Currency := "usd",
         Date := 50, RecurringID := "R1" },
       { ID := "B", Description := "Rent", From := "", To := "", Method := "",
         Note := "", Category := "Rent", Amount := -5, Currency := "usd",
         Date := 150, RecurringID := "R1" },
       { ID := "C", Description := "Food", From := "", To := "", Method := "",
         Note := "", Category := "Food", Amount := -2, Currency := "usd",
         Date := 60, RecurringID := "" }],
    defaultsCurrency := "usd" }

/-- The template for the C2 witness: monthly, three occurrences, starting
2024-01-15. -/
def c2Template : Recur.RecurringExpense :=
  { ID := "R2", Description := "Rent", Amount := -5, Currency := "usd",
    From := "", To := "", Method := "", Note := "", Category := "Rent",
    StartDate := goDate 2024 1 15 0 0 0, Interval := "monthly", Occurrences := 3 }

/-! ## Claim theorems. -/

/-- C1: Trial-balance identity — for every transaction list and every
opening balance, the reported total debits (total outflow sum plus closing
balance, where the closing balance is the opening balance plus total
inflows minus total outflows) equal the reported total credits (opening
balance plus total inflow sum). In this exact-arithmetic model of `float64`
the two sides agree exactly. -/
theorem trial_balance_identity (expenses : List Expense) (openingBalance : Rat) :
    totalDebits expenses openingBalance = totalCredits expenses openingBalance := by
  unfold totalDebits closingBalance totalCredits
  ring

/-- C9 (code bug): for every store state, `UpdateLanguage "ms"` reports
success, yet a subsequent `GetLanguage` returns `"en"`, not `"ms"`:
`saveConfig` writes only categories, currency and start date, and the
`config` table has no language column, so the updated language is dropped
and `GetConfig` always decodes an empty language. -/
theorem updateLanguage_not_persisted (st : DBState) :
    (UpdateLanguage st "ms").2 = Except.ok ()
    ∧ (GetLanguage (UpdateLanguage st "ms").1).2 = "en"
    ∧ "en" ≠ "ms" := by
  refine ⟨?_, ?_, by decide⟩ <;>
    cases h : st.configRow <;>
      simp [UpdateLanguage, SupportedLanguages, updateConfig, GetConfig, GetLanguage,
            saveConfig, h]

/-- C10: the store-level `AddExpense` applies no field validation — a
transaction with amount exactly zero and an empty description is accepted
and persisted exactly as given (no sanitization, no `Validate` check). -/
theorem addExpense_no_validation :
    c10Expense.Amount = 0
    ∧ c10Expense.Description = ""
    ∧ (Recur.AddExpense c10State 0 0 c10Expense 0).2 = Except.ok ()
    ∧ (Recur.AddExpense c10State 0 0 c10Expense 0).1.1.expenses = [c10Expense] := by
  decide

/-- C5 (code bug): `AddRecurringExpense` bulk-copies the generated instances
exactly as the expander produced them, every one with the empty string as
ID (the `AddMultipleExpenses` ID assignment announced in the source comment
is bypassed). For the template above with occurrence count 2 both instances
carry ID `""`, the `expenses` primary key is violated, and the whole
transaction rolls back: neither the rule nor any instance is persisted and
an error is returned — not the claimed success with unique per-instance
IDs. -/
theorem addRecurring_duplicate_ids_rollback :
    (Recur.generateExpensesFromRecurring c5Template).map (fun e => e.ID) = ["", ""]
    ∧ Recur.AddRecurringExpense c5State c5Template "uuid-1"
        = (c5State, Except.error "failed to finalize copy in") := by
  decide

/-- C8: `UpdateCurrency` validates membership in the fixed 30-element
supported-currency set — every string outside the set fails with a
validation error and leaves the stored configuration untouched (the
function returns before any database write); every member succeeds. -/
theorem updateCurrency_validates (st : DBState) (c : String) :
    SupportedCurrencies.length = 30
    ∧ (SupportedCurrencies.contains c = false →
        UpdateCurrency st c = (st, Except.error ("invalid currency: " ++ c)))
    ∧ (SupportedCurrencies.contains c = true →
        (UpdateCurrency st c).2 = Except.ok ()) := by
  refine ⟨by decide, fun h => ?_, fun h => ?_⟩ <;> simp at h <;> simp [UpdateCurrency, h]

/-- Witness for C8: the unsupported code `"xyz"` is rejected with the state
unchanged, and the supported code `"usd"` is accepted. -/
theorem updateCurrency_validates_witness :
    (UpdateCurrency { configRow := none, expenses := [], defaultsCurrency := "" } "xyz"
      = ({ configRow := none, expenses := [], defaultsCurrency := "" },
         Except.error "invalid currency: xyz"))
    ∧ (UpdateCurrency { configRow := none, expenses := [], defaultsCurrency := "" } "usd").2
        = Except.ok () :=
  ⟨(updateCurrency_validates _ "xyz").2.1 (by decide),
   (updateCurrency_validates _ "usd").2.2 (by decide)⟩

/-- C4 counterexample: `Validate` checks the category as given, not after
sanitization — on a transaction whose category sanitizes to the empty
string, `Validate` succeeds although the claimed characterization says it
must fail. -/
theorem validate_category_counterexample :
    ¬ (exceptOk c4Expense.validate = true ↔
        (SanitizeString c4Expense.Description ≠ ""
         ∧ SanitizeString c4Expense.Category ≠ ""
         ∧ c4Expense.Amount ≠ 0
         ∧ c4Expense.Date ≠ zeroTime)) := by
  decide

/-- C4 amended: `Validate` succeeds iff the description is non-empty after
sanitization, the category is non-empty as given (the category is not
sanitized), the amount is not exactly zero, and the date is not the zero
value; each failure returns the error naming the offending field. -/
theorem validate_characterization (e : Expense) :
    (exceptOk e.validate = true ↔
      (SanitizeString e.Description ≠ "" ∧ e.Category ≠ ""
       ∧ e.Amount ≠ 0 ∧ e.Date ≠ zeroTime))
    ∧ (SanitizeString e.Description = "" →
        e.validate = Except.error ValidationErr.descriptionEmpty)
    ∧ (SanitizeString e.Description ≠ "" ∧ e.Category = "" →
        e.validate = Except.error ValidationErr.categoryEmpty)
    ∧ (SanitizeString e.Description ≠ "" ∧ e.Category ≠ "" ∧ e.Amount = 0 →
        e.validate = Except.error ValidationErr.amountZero)
    ∧ (SanitizeString e.Description ≠ "" ∧ e.Category ≠ "" ∧ e.Amount ≠ 0
        ∧ e.Date = zeroTime →
        e.validate = Except.error ValidationErr.dateEmpty) := by
  unfold Expense.validate
  dsimp only
  split_ifs with h1 h2 h3 h4 <;> simp_all [exceptOk]

/-- Witness for C4: a transaction with every required field in order
validates successfully. -/
theorem validate_characterization_witness :
    exceptOk (Expense.validate
      { ID := "", Description := "Rent", From := "", To := "", Method := "",
        Note := "", Category := "Rent", Amount := -5, Currency := "",
        Date := goDate 2024 3 5 0 0 0 }) = true :=
  (validate_characterization _).1.mpr (by decide)

/-- `find?` skips a prefix on which the predicate is everywhere false. -/
theorem find?_append_of_forall_false {α : Type} {p : α → Bool} {l1 : List α}
    (h : ∀ x ∈ l1, p x = false) :
    ∀ l2 : List α, (l1 ++ l2).find? p = l2.find? p := by
  induction l1 with
  | nil => intro l2; rfl
  | cons a t ih =>
    intro l2
    have ha := h a (by simp)
    simp only [List.cons_append, List.find?, ha]
    exact ih (fun x hx => h x (by simp [hx])) l2

/-- C3 counterexample: adding a transaction whose caller-supplied currency
is `"myr"` and fetching it back by its ID does not return the input — the
fetched value carries an empty currency, because the `SELECT` behind
`GetExpense`/`scanExpense` has no currency column. -/
theorem roundtrip_currency_counterexample :
    c3Expense.Currency = "myr"
    ∧ c3Expense.ID ≠ ""
    ∧ c3Expense.Date ≠ zeroTime
    ∧ (AddExpense c3State c3Expense 0).2 = Except.ok ()
    ∧ GetExpense (AddExpense c3State c3Expense 0).1 "E1" ≠ Except.ok c3Expense
    ∧ GetExpense (AddExpense c3State c3Expense 0).1 "E1"
        = Except.ok { c3Expense with Currency := "" } := by
  decide

/-- C3 amended: adding a transaction with a caller-supplied (non-empty,
fresh) ID and then fetching it by that ID returns a value equal to the
input on every field except the currency — which is always empty in the
fetched value, the fetch never reading the currency column — and the date,
which is defaulted to `now` when the input date was zero. -/
theorem addExpense_getExpense_roundtrip (st : DBState) (e : Expense) (now : Int)
    (hid : e.ID ≠ "")
    (hfresh : ∀ x ∈ st.expenses, x.ID ≠ e.ID) :
    (AddExpense st e now).2 = Except.ok ()
    ∧ GetExpense (AddExpense st e now).1 e.ID
        = Except.ok { e with
            Currency := ""
            Date := if e.Date = zeroTime then now else e.Date } := by
  have hex : ¬ ∃ x ∈ st.expenses, x.ID = e.ID := by
    rintro ⟨x, hx, hxe⟩
    exact hfresh x hx hxe
  have hall : ∀ x ∈ st.expenses, ((fun x => (x.ID = e.ID : Bool)) x) = false := by
    intro x hx
    simp [hfresh x hx]
  unfold AddExpense GetExpense
  by_cases hc : e.Currency = "" <;> by_cases hd : e.Date = zeroTime <;>
    simp_all [find?_append_of_forall_false hall, List.find?, if_neg hex]

/-- Witness for C3 (amended): a concrete add/fetch pair, with a zero input
date defaulted to `now`. -/
theorem addExpense_getExpense_roundtrip_witness :
    (AddExpense
        { configRow := none, expenses := [], defaultsCurrency := "usd" }
        { ID := "W1", Description := "Water", From := "", To := "", Method := "",
          Note := "", Category := "Utilities", Amount := -3, Currency := "myr",
          Date := zeroTime } 1700000000).2 = Except.ok ()
    ∧ GetExpense
        (AddExpense
          { configRow := none, expenses := [], defaultsCurrency := "usd" }
          { ID := "W1", Description := "Water", From := "", To := "", Method := "",
            Note := "", Category := "Utilities", Amount := -3, Currency := "myr",
            Date := zeroTime } 1700000000).1 "W1"
        = Except.ok
            { ID := "W1", Description := "Water", From := "", To := "",
              Method := "", Note := "", Category := "Utilities", Amount := -3,
              Currency := "",
              Date := (if (zeroTime : Int) = zeroTime then 1700000000 else zeroTime) } :=
  addExpense_getExpense_roundtrip
    { configRow := none, expenses := [], defaultsCurrency := "usd" }
    { ID := "W1", Description := "Water", From := "", To := "", Method := "",
      Note := "", Category := "Utilities", Amount := -3, Currency := "myr",
      Date := zeroTime } 1700000000 (by decide) (by decide)

/-- Filtering for `p` after keeping only the complement of `p` leaves
nothing. -/
theorem filter_not_filter_eq_nil {α : Type} (p : α → Bool) (l : List α) :
    (l.filter fun a => !(p a)).filter p = [] := by
  induction l with
  | nil => rfl
  | cons a t ih => cases h : p a <;> simp [List.filter, h, ih]

/-- Filtering for `p` after removing the elements satisfying both `p` and
`q` keeps exactly the elements satisfying `p` but not `q`. -/
theorem filter_remove_conj {α : Type} (p q : α → Bool) (l : List α) :
    (l.filter fun a => !(p a && q a)).filter p
      = l.filter fun a => p a && !(q a) := by
  rw [List.filter_filter]
  exact List.filter_congr fun a _ => by cases hp : p a <;> cases hq : q a <;> simp [hp, hq]

/-- C7: removing a recurring template that exists. With the remove-all flag
no stored transaction references the ID of the template afterwards; with the
future-only flag the transactions still referencing it are exactly those of
the original state dated on or before the removal time (so exactly the
instances dated strictly after `now` are deleted). -/
theorem removeRecurring_instances (st : Recur.RecurState) (id : String) (now : Int)
    (hmem : (st.rules.any fun r => (r.ID = id : Bool)) = true) :
    ((Recur.RemoveRecurringExpense st id true now).2 = Except.ok ()
     ∧ (Recur.RemoveRecurringExpense st id true now).1.expenses.filter
         (fun e => (e.RecurringID = id : Bool)) = [])
    ∧ ((Recur.RemoveRecurringExpense st id false now).2 = Except.ok ()
       ∧ (Recur.RemoveRecurringExpense st id false now).1.expenses.filter
           (fun e => (e.RecurringID = id : Bool))
         = st.expenses.filter
             (fun e => (e.RecurringID = id : Bool) && (e.Date ≤ now : Bool))) := by
  have h1 : Recur.RemoveRecurringExpense st id true now
      = ({ st with
           rules := st.rules.filter fun r => !(r.ID = id : Bool)
           expenses := st.expenses.filter fun e => !(e.RecurringID = id : Bool) },
         Except.ok ()) := by
    unfold Recur.RemoveRecurringExpense
    simp [hmem]
  have h2 : Recur.RemoveRecurringExpense st id false now
      = ({ st with
           rules := st.rules.filter fun r => !(r.ID = id : Bool)
           expenses := st.expenses.filter
             fun e => !((e.RecurringID = id : Bool) && (now < e.Date : Bool)) },
         Except.ok ()) := by
    unfold Recur.RemoveRecurringExpense
    simp [hmem]
  rw [h1, h2]
  refine ⟨⟨rfl, ?_⟩, rfl, ?_⟩
  · exact filter_not_filter_eq_nil _ _
  · dsimp only
    rw [filter_remove_conj (fun e : Recur.Expense => (e.RecurringID = id : Bool))
        (fun e : Recur.Expense => (now < e.Date : Bool))]
    exact List.filter_congr fun e _ => by
      by_cases h : now < e.Date
      · simp [h, decide_eq_false (show ¬ e.Date ≤ now by omega)]
      · simp [h, decide_eq_true (show e.Date ≤ now by omega)]

/-- Witness for C7 at `now = 100`: remove-all leaves no `"R1"` instance;
future-only keeps exactly the instance dated `50 ≤ 100`. -/
theorem removeRecurring_instances_witness :
    ((Recur.RemoveRecurringExpense c7State "R1" true 100).2 = Except.ok ()
     ∧ (Recur.RemoveRecurringExpense c7State "R1" true 100).1.expenses.filter
         (fun e => (e.RecurringID = "R1" : Bool)) = [])
    ∧ ((Recur.RemoveRecurringExpense c7State "R1" false 100).2 = Except.ok ()
       ∧ (Recur.RemoveRecurringExpense c7State "R1" false 100).1.expenses.filter
           (fun e => (e.RecurringID = "R1" : Bool))
         = c7State.expenses.filter
             (fun e => (e.RecurringID = "R1" : Bool) && (e.Date ≤ (100 : Int) : Bool))) :=
  removeRecurring_instances c7State "R1" 100 (by decide)

/-- When every step of the interval of the template succeeds, the
materialization loop produces one instance per iteration, dated at the
iterated cursor values. -/
theorem genLoop_eq_map (recExp : Recur.RecurringExpense) (f : Int → Int)
    (hf : ∀ d, Recur.stepInterval recExp.Interval d = some (f d)) :
    ∀ (n : Nat) (cur : Int),
      Recur.genLoop recExp cur n
        = (List.range n).map fun i => Recur.instanceOf recExp (f^[i] cur) := by
  intro n
  induction n with
  | zero => intro cur; rfl
  | succ n ih =>
    intro cur
    rw [Recur.genLoop, hf cur, List.range_succ_eq_map]
    simp only [List.map_cons, List.map_map, Function.iterate_zero, id]
    refine congrArg₂ _ rfl ?_
    rw [ih (f cur)]
    refine List.map_congr_left fun i _ => ?_
    simp [Function.comp, Function.iterate_succ_apply]

/-- C2: with a recognized interval, occurrence count `N > 0` and
`fromToday = false`, recurrence expansion produces exactly `N` instances;
the first is dated at the start date of the template and each successive
instance is dated exactly one interval step (as computed by the `AddDate`
switch of the code) after the previous one. -/
theorem recurrence_expansion_count_and_dates (recExp : Recur.RecurringExpense)
    (_hN : 0 < recExp.Occurrences)
    (hint : recExp.Interval = "daily" ∨ recExp.Interval = "weekly"
            ∨ recExp.Interval = "monthly" ∨ recExp.Interval = "yearly") :
    (Recur.generateExpensesFromRecurring recExp).length = recExp.Occurrences.toNat
    ∧ (∀ h0 : 0 < (Recur.generateExpensesFromRecurring recExp).length,
        ((Recur.generateExpensesFromRecurring recExp).get ⟨0, h0⟩).Date
          = recExp.StartDate)
    ∧ ∀ (i : Nat) (h : i + 1 < (Recur.generateExpensesFromRecurring recExp).length),
        some ((Recur.generateExpensesFromRecurring recExp).get ⟨i + 1, h⟩).Date
          = Recur.stepInterval recExp.Interval
              ((Recur.generateExpensesFromRecurring recExp).get
                ⟨i, Nat.lt_of_succ_lt h⟩).Date := by
  have step : ∃ f : Int → Int, ∀ d, Recur.stepInterval recExp.Interval d = some (f d) := by
    rcases hint with h | h | h | h
    · exact ⟨fun d => addDate d 0 0 1, fun d => by simp [Recur.stepInterval, h]⟩
    · exact ⟨fun d => addDate d 0 0 7, fun d => by simp [Recur.stepInterval, h]⟩
    · exact ⟨fun d => addDate d 0 1 0, fun d => by simp [Recur.stepInterval, h]⟩
    · exact ⟨fun d => addDate d 1 0 0, fun d => by simp [Recur.stepInterval, h]⟩
  obtain ⟨f, hf⟩ := step
  have hgen : Recur.generateExpensesFromRecurring recExp
      = (List.range recExp.Occurrences.toNat).map
          fun i => Recur.instanceOf recExp (f^[i] recExp.StartDate) :=
    genLoop_eq_map recExp f hf _ _
  refine ⟨by rw [hgen]; simp, fun h0 => ?_, fun i h => ?_⟩
  · have : (Recur.generateExpensesFromRecurring recExp).get ⟨0, h0⟩
        = Recur.instanceOf recExp (f^[0] recExp.StartDate) := by
      rw [List.get_eq_getElem]
      simp only [hgen]
      rw [List.getElem_map, List.getElem_range]
    rw [this]
    rfl
  · have hlen : i + 1 < recExp.Occurrences.toNat := by
      have := h
      rwa [hgen, List.length_map, List.length_range] at this
    have g1 : (Recur.generateExpensesFromRecurring recExp).get ⟨i + 1, h⟩
        = Recur.instanceOf recExp (f^[i + 1] recExp.StartDate) := by
      rw [List.get_eq_getElem]
      simp only [hgen]
      rw [List.getElem_map, List.getElem_range]
    have g0 : (Recur.generateExpensesFromRecurring recExp).get ⟨i, Nat.lt_of_succ_lt h⟩
        = Recur.instanceOf recExp (f^[i] recExp.StartDate) := by
      rw [List.get_eq_getElem]
      simp only [hgen]
      rw [List.getElem_map, List.getElem_range]
    rw [g1, g0]
    show some (f^[i + 1] recExp.StartDate) = Recur.stepInterval recExp.Interval _
    rw [hf, Function.iterate_succ_apply']
    rfl

/-- Witness for C2: the monthly template above expands to three instances
dated 2024-01-15, 2024-02-15 and 2024-03-15. -/
theorem recurrence_expansion_count_and_dates_witness :
    (Recur.generateExpensesFromRecurring c2Template).length = c2Template.Occurrences.toNat
    ∧ (Recur.generateExpensesFromRecurring c2Template).map (fun e => e.Date)
        = [goDate 2024 1 15 0 0 0, goDate 2024 2 15 0 0 0, goDate 2024 3 15 0 0 0] :=
  ⟨(recurrence_expansion_count_and_dates c2Template (by decide) (by decide)).1,
   by decide⟩

/-- `isLeap` in propositional form. -/
theorem isLeap_iff (y : Int) :
    isLeap y = true ↔ (y % 4 = 0 ∧ (y % 100 ≠ 0 ∨ y % 400 = 0)) := by
  unfold isLeap
  simp

/-- A year has 366 days exactly when it is leap. -/
theorem daysBeforeYear_succ (y : Int) :
    daysBeforeYear (y + 1)
      = daysBeforeYear y + (if isLeap y = true then 366 else 365) := by
  cases h : isLeap y
  · have hh : ¬ (y % 4 = 0 ∧ (y % 100 ≠ 0 ∨ y % 400 = 0)) := by
      rw [← isLeap_iff, h]
      simp
    unfold daysBeforeYear
    simp only [Bool.false_eq_true, if_false]
    omega
  · have hh : y % 4 = 0 ∧ (y % 100 ≠ 0 ∨ y % 400 = 0) := (isLeap_iff y).mp h
    unfold daysBeforeYear
    simp only [if_true]
    omega

/-- The month table is consistent with the month lengths: for
`m ∈ [1, 11]`, the days before month `m + 1` are the days before month `m`
plus the length of month `m`. -/
theorem daysBeforeMonth_succ (y m : Int) (h1 : 1 ≤ m) (h2 : m ≤ 11) :
    daysBeforeMonth y (m + 1) = daysBeforeMonth y m + daysInMonth y m := by
  rcases Bool.eq_false_or_eq_true (isLeap y) with h | h <;>
    interval_cases m <;>
      simp [daysBeforeMonth, daysInMonth, h]

/-- Day 0 of month `m + 1` is the last day of month `m`: the normalized day
number of `(y, m + 1, 0)` equals that of `(y, m, daysInMonth y m)`, for any
real month `m ∈ [1, 12]` and any year. -/
theorem civilDays_day_zero_succ_month (y m : Int) (h1 : 1 ≤ m) (h2 : m ≤ 12) :
    civilDays y (m + 1) 0 = civilDays y m (daysInMonth y m) := by
  rcases lt_or_eq_of_le h2 with h12 | h12
  · simp only [civilDays]
    rw [show (m + 1 - 1) / 12 = 0 by omega, show (m + 1 - 1) % 12 + 1 = m + 1 by omega,
      show (m - 1) / 12 = 0 by omega, show (m - 1) % 12 + 1 = m by omega]
    simp only [add_zero]
    rw [daysBeforeMonth_succ y m h1 (by omega)]
    omega
  · subst h12
    simp only [civilDays]
    rw [show ((12 : Int) + 1 - 1) / 12 = 1 by decide,
      show ((12 : Int) + 1 - 1) % 12 + 1 = 1 by decide,
      show ((12 : Int) - 1) / 12 = 0 by decide,
      show ((12 : Int) - 1) % 12 + 1 = 12 by decide,
      daysBeforeYear_succ y]
    rcases Bool.eq_false_or_eq_true (isLeap y) with h | h <;>
      simp [daysBeforeMonth, daysInMonth, h] <;> omega

/-- C6: the report window. With start-date 1 it is the full calendar month
(1st at 00:00:00 through the last day at 23:59:59); with start-date `s > 1`
it runs from day `s` of the month at 00:00:00 to day `s - 1` of the
following month at 23:59:59, the year incrementing when the month is
December. Concretely, start-date 5 with March 2024 yields
[2024-03-05T00:00:00Z, 2024-04-04T23:59:59Z], and a transaction passes the
date filter iff its date lies within the window inclusively. -/
theorem report_window_spec (s y m : Int) (hs : 1 ≤ s ∧ s ≤ 31) (hm : 1 ≤ m ∧ m ≤ 12) :
    (s = 1 → reportWindow s y m
      = (goDate y m 1 0 0 0, goDate y m (daysInMonth y m) 23 59 59))
    ∧ (1 < s → reportWindow s y m
      = (goDate y m s 0 0 0,
         goDate (if m = 12 then y + 1 else y) (if m = 12 then 1 else m + 1)
           (s - 1) 23 59 59))
    ∧ reportWindow 5 2024 3 = (goDate 2024 3 5 0 0 0, goDate 2024 4 4 23 59 59)
    ∧ ∀ (l : List Expense) (e : Expense),
        e ∈ filterByWindow (reportWindow s y m) l
        ↔ e ∈ l ∧ (reportWindow s y m).1 ≤ e.Date ∧ e.Date ≤ (reportWindow s y m).2 := by
  refine ⟨fun h1 => ?_, fun hgt => ?_, by decide, fun l e => ?_⟩
  · subst h1
    unfold reportWindow
    rw [if_pos rfl]
    refine Prod.ext rfl ?_
    show goDate y (m + 1) 0 23 59 59 = goDate y m (daysInMonth y m) 23 59 59
    unfold goDate
    rw [civilDays_day_zero_succ_month y m hm.1 hm.2]
  · unfold reportWindow
    rw [if_neg (by omega)]
    by_cases h12 : m = 12 <;> simp [h12]
  · unfold filterByWindow
    rw [List.mem_filter]
    unfold inWindow
    constructor
    · rintro ⟨hmem, hw⟩
      simp only [Bool.and_eq_true, Bool.or_eq_true, decide_eq_true_eq] at hw
      exact ⟨hmem, by omega, by omega⟩
    · rintro ⟨hmem, hlo, hhi⟩
      refine ⟨hmem, ?_⟩
      simp only [Bool.and_eq_true, Bool.or_eq_true, decide_eq_true_eq]
      omega

/-- Witness for C6 at start-date 5, March 2024: the concrete window of the
claim. -/
theorem report_window_spec_witness :
    reportWindow 5 2024 3 = (goDate 2024 3 5 0 0 0, goDate 2024 4 4 23 59 59) :=
  (report_window_spec 5 2024 3 (by decide) (by decide)).2.2.1

end ExpenseOwl

/-! Concrete evaluation checks of the executable model. -/

example : ExpenseOwl.SanitizeString "  hello   world! " = "hello world!" := by decide
example : ExpenseOwl.SanitizeString "@" = "" := by decide
example : ExpenseOwl.SanitizeString "a@@b" = "a b" := by decide
example : ExpenseOwl.GenerateTransactionID false 5 = "BAU-0005" := by decide
example : ExpenseOwl.GenerateTransactionID true 12345 = "RES-12345" := by decide

example : ExpenseOwl.goDate 1970 1 1 0 0 0 = 0 := by decide
example : ExpenseOwl.civilFromDays 0 = (1970, 1, 1) := by decide
example : ExpenseOwl.goDate 2024 3 5 0 0 0 = 1709596800 := by decide
example : ExpenseOwl.civilFromDays (1709596800 / 86400) = (2024, 3, 5) := by decide
-- Jan 31 2024 plus one month normalizes to Mar 2 2024, as in Go
example : ExpenseOwl.addDate (ExpenseOwl.goDate 2024 1 31 0 0 0) 0 1 0
    = ExpenseOwl.goDate 2024 3 2 0 0 0 := by decide
example : ExpenseOwl.addDate (ExpenseOwl.goDate 2024 3 5 12 30 15 : Int) 0 0 1
    = ExpenseOwl.goDate 2024 3 6 12 30 15 := by decide
example : ExpenseOwl.goDate 2024 4 0 23 59 59 = ExpenseOwl.goDate 2024 3 31 23 59 59 := by decide
example : ExpenseOwl.goDate 2023 13 0 0 0 0 = ExpenseOwl.goDate 2023 12 31 0 0 0 := by decide
example : ExpenseOwl.zeroTime = -62135596800 := by decide
